import Mathlib

/-!
Verification development for the KQCircuits simulation-scripting modules:
the Ansys geometry-command builder
(`scripts/simulations/ansys/util/geometry.py`) and the Elmer cross-section
helpers (`scripts/simulations/elmer/cross_section_helpers.py`).

The Python functions are shallowly embedded: every function that talks to
the external editor session is modelled as a pure function returning the
list of API calls it issues (and its return value, where it has one).
Python numbers are modelled as rationals (or reals where the code uses
`math.cos` and float powers), Python exceptions as `Option`.
-/

namespace AnsysGeometry

/-- A value appearing in the nested token lists passed to the Ansys API:
a string, a boolean, an integer, or a nested list. -/
inductive AVal where
  | str : String → AVal
  | bool : Bool → AVal
  | int : Int → AVal
  | list : List AVal → AVal

/-- A position/size argument as accepted by `format_position`: a bare
number, an already unit-qualified string, or a (possibly nested) list. -/
inductive PosVal where
  | num : ℚ → PosVal
  | str : String → PosVal
  | list : List PosVal → PosVal

/-- One call issued to the external editor session or definition manager.
The constructor holds the exact argument lists passed. -/
inductive Call where
  | createRectangle : AVal → AVal → Call
  | createPolyline : AVal → AVal → Call
  | createBox : AVal → AVal → Call
  | sweepAlongVector : AVal → AVal → Call
  | changeProperty : AVal → Call
  | move : AVal → AVal → Call
  | copy : AVal → Call
  | paste : Call
  | delete : AVal → Call
  | subtract : AVal → AVal → Call
  | unite : AVal → AVal → Call
  | scale : AVal → AVal → Call
  | addMaterial : AVal → Call

mutual

/-- Embeds `format_position`: numbers get the unit suffix appended to their
decimal string, strings pass through, lists are mapped elementwise. -/
def format_position : PosVal → String → PosVal
  | .num q, units => .str (toString q ++ units)
  | .str s, _ => .str s
  | .list l, units => .list (formatPositionList l units)

/-- Elementwise recursion of `format_position` into a list. -/
def formatPositionList : List PosVal → String → List PosVal
  | [], _ => []
  | p :: ps, units => format_position p units :: formatPositionList ps units

end

mutual

/-- Embed the (strings-and-lists) result of `format_position` into `AVal`.
The `num` case cannot occur in a `format_position` result. -/
def posToAVal : PosVal → AVal
  | .num q => .str (toString q)
  | .str s => .str s
  | .list l => .list (posToAValList l)

/-- Elementwise embedding of a list of position values. -/
def posToAValList : List PosVal → List AVal
  | [] => []
  | p :: ps => posToAVal p :: posToAValList ps

end

/-- A formatted position argument as it appears in an API call. -/
def fmtA (x : PosVal) (units : String) : AVal :=
  posToAVal (format_position x units)

/-- Python `x != 0.0` on a position argument: a number compares by value,
a string or list is never equal to a float. -/
def pyNeZero : PosVal → Bool
  | .num q => decide (q ≠ 0)
  | .str _ => true
  | .list _ => true

/-- Embeds `create_rectangle`: issues one `CreateRectangle` call unless the width
or the height is zero, in which case nothing is issued. -/
def create_rectangle (name : String) (x y z w h : PosVal) (axis units : String) :
    List Call :=
  if pyNeZero w && pyNeZero h then
    [Call.createRectangle
      (.list [.str "NAME:RectangleParameters",
        .str "IsCovered:=", .bool true,
        .str "XStart:=", fmtA x units,
        .str "YStart:=", fmtA y units,
        .str "ZStart:=", fmtA z units,
        .str "Width:=", fmtA w units,
        .str "Height:=", fmtA h units,
        .str "WhichAxis:=", .str axis])
      (.list [.str "NAME:Attributes", .str "Name:=", .str name,
        .str "PartCoordinateSystem:=", .str "Global"])]
  else []

/-- Embeds `create_box`: issues one `CreateBox` call unless one of the three box
extents is zero, in which case nothing is issued. -/
def create_box (name : String) (x y z sx sy sz : PosVal) (units : String) :
    List Call :=
  if pyNeZero sx && pyNeZero sy && pyNeZero sz then
    [Call.createBox
      (.list [.str "NAME:BoxParameters",
        .str "XPosition:=", fmtA x units,
        .str "YPosition:=", fmtA y units,
        .str "ZPosition:=", fmtA z units,
        .str "XSize:=", fmtA sx units,
        .str "YSize:=", fmtA sy units,
        .str "ZSize:=", fmtA sz units])
      (.list [.str "NAME:Attributes", .str "Name:=", .str name,
        .str "MaterialValue:=", .str "\"\"", .str "Flags:=", .str "",
        .str "PartCoordinateSystem:=", .str "Global"])]
  else []

/-- A 3-component point handed to `create_polygon`. -/
structure Point3 where
  x : PosVal
  y : PosVal
  z : PosVal

/-- One `NAME:PLPoint` entry of the polyline command. -/
def plPoint (p : Point3) (units : String) : AVal :=
  .list [.str "NAME:PLPoint",
    .str "X:=", fmtA p.x units,
    .str "Y:=", fmtA p.y units,
    .str "Z:=", fmtA p.z units]

/-- One `NAME:PLSegment` entry of the polyline command. -/
def plSegment (i : ℤ) : AVal :=
  .list [.str "NAME:PLSegment", .str "SegmentType:=", .str "Line",
    .str "StartIndex:=", .int i, .str "NoOfPoints:=", .int 2]

/-- The point entries of the polyline command: the source iterates over
`points + [points[0]]`, so the first point is appended again at the end. -/
def polylinePoints (points : List Point3) (units : String) : List AVal :=
  match points with
  | [] => []
  | p :: rest => ((p :: rest) ++ [p]).map (fun q => plPoint q units)

/-- The segment entries of the polyline command: one line segment starting
at each index `i` in `range(len(points))`. -/
def polylineSegments (points : List Point3) : List AVal :=
  (List.range points.length).map (fun i : ℕ => plSegment i)

/-- The fixed cross-section block of the polyline command. -/
def polylineXSection (units : String) : AVal :=
  .list [.str "NAME:PolylineXSection",
    .str "XSectionType:=", .str "None",
    .str "XSectionOrient:=", .str "Auto",
    .str "XSectionWidth:=", .str ("0" ++ units),
    .str "XSectionTopWidth:=", .str ("0" ++ units),
    .str "XSectionHeight:=", .str ("0" ++ units),
    .str "XSectionNumSegments:=", .str "0",
    .str "XSectionBendType:=", .str "Corner"]

/-- The full `CreatePolyline` call built from the point list. -/
def polylineCommand (name : String) (points : List Point3) (units : String) :
    Call :=
  Call.createPolyline
    (.list [.str "NAME:PolylineParameters",
      .str "IsPolylineCovered:=", .bool true,
      .str "IsPolylineClosed:=", .bool true,
      .list (.str "NAME:PolylinePoints" :: polylinePoints points units),
      .list (.str "NAME:PolylineSegments" :: polylineSegments points),
      polylineXSection units])
    (.list [.str "NAME:Attributes", .str "Name:=", .str name,
      .str "Flags:=", .str "", .str "PartCoordinateSystem:=", .str "Global"])

/-- Embeds `create_polygon`: issues one `CreatePolyline` call.  On an empty point
list the source raises (it indexes `points[0]`), modelled as `none`. -/
def create_polygon (name : String) (points : List Point3) (units : String) :
    Option Call :=
  match points with
  | [] => none
  | p :: rest => some (polylineCommand name (p :: rest) units)

/-- The `NAME:Selections` argument used by the transform functions. -/
def selections (objects : List String) : AVal :=
  .list [.str "NAME:Selections",
    .str "Selections:=", .str (String.intercalate "," objects),
    .str "NewPartsModelFlag:=", .str "Model"]

/-- Embeds `thicken_sheet`: sweeps the sheets along a vertical vector; no call is
issued when the object list is empty or the thickness is zero. -/
def thicken_sheet (objects : List String) (thickness : ℚ) (units : String) :
    List Call :=
  if !objects.isEmpty && decide (thickness ≠ 0) then
    [Call.sweepAlongVector (selections objects)
      (.list [.str "NAME:VectorSweepParameters",
        .str "DraftAngle:=", .str "0deg",
        .str "DraftType:=", .str "Round",
        .str "CheckFaceFaceIntersection:=", .bool false,
        .str "SweepVectorX:=", .str "0um",
        .str "SweepVectorY:=", .str "0um",
        .str "SweepVectorZ:=", .str (toString thickness ++ " " ++ units)])]
  else []

/-- The `ChangedProps` payload setting `Solve Inside`. -/
def solveInsideProp (objects : List String) (solve_inside : Bool) : AVal :=
  .list [.str "NAME:AllTabs",
    .list [.str "NAME:Geometry3DAttributeTab",
      .list (.str "NAME:PropServers" :: objects.map .str),
      .list [.str "NAME:ChangedProps",
        .list [.str "NAME:Solve Inside", .str "Value:=", .bool solve_inside]]]]

/-- The `ChangedProps` payload setting the `Material` property. -/
def materialProp (objects : List String) (material : String) : AVal :=
  .list [.str "NAME:AllTabs",
    .list [.str "NAME:Geometry3DAttributeTab",
      .list (.str "NAME:PropServers" :: objects.map .str),
      .list [.str "NAME:ChangedProps",
        .list [.str "NAME:Material", .str "Value:=",
          .str ("\"" ++ material ++ "\"")]]]]

/-- The `ChangedProps` payload excluding the objects from the model by
setting `Model` to `False`. -/
def modelFalseProp (objects : List String) : AVal :=
  .list [.str "NAME:AllTabs",
    .list [.str "NAME:Geometry3DAttributeTab",
      .list (.str "NAME:PropServers" :: objects.map .str),
      .list [.str "NAME:ChangedProps",
        .list [.str "NAME:Model", .str "Value:=", .bool false]]]]

/-- Embeds `set_material`: on a non-empty object list, optionally sets
`Solve Inside`, then sets `Material` when a material is given and
otherwise sets `Model` to `False`. -/
def set_material (objects : List String) (material : Option String)
    (solve_inside : Option Bool) : List Call :=
  if !objects.isEmpty then
    (match solve_inside with
     | some si => [Call.changeProperty (solveInsideProp objects si)]
     | none => []) ++
    (match material with
     | some m => [Call.changeProperty (materialProp objects m)]
     | none => [Call.changeProperty (modelFalseProp objects)])
  else []

/-- Embeds `move_vertically`: moves the objects by `z_shift`; no call is issued
when the object list is empty or the shift is zero. -/
def move_vertically (objects : List String) (z_shift : ℚ) (units : String) :
    List Call :=
  if !objects.isEmpty && decide (z_shift ≠ 0) then
    [Call.move (selections objects)
      (.list [.str "NAME:TranslateParameters",
        .str "TranslateVectorX:=", .str ("0 " ++ units),
        .str "TranslateVectorY:=", .str ("0 " ++ units),
        .str "TranslateVectorZ:=", .str (toString z_shift ++ " " ++ units)])]
  else []

/-- Embeds `copy_paste`: copies and pastes the objects, returning the names the
session reports for the pasted copies (`pasteResult` models the value the
external `Paste` call returns); on an empty list no call is issued and the
result is the empty list. -/
def copy_paste (pasteResult : List String) (objects : List String) :
    List Call × List String :=
  if !objects.isEmpty then
    ([Call.copy (.list [.str "NAME:Selections",
        .str "Selections:=", .str (String.intercalate "," objects)]),
      Call.paste], pasteResult)
  else ([], [])

/-- Embeds `delete`: deletes the objects; no call is issued on an empty list. -/
def delete (objects : List String) : List Call :=
  if !objects.isEmpty then
    [Call.delete (.list [.str "NAME:Selections",
      .str "Selections:=", .str (String.intercalate "," objects)])]
  else []

/-- Embeds `subtract`: subtracts `tool_objects` from `objects`; no call is issued
unless both lists are non-empty. -/
def subtract (objects tool_objects : List String) (keep_originals : Bool) :
    List Call :=
  if !objects.isEmpty && !tool_objects.isEmpty then
    [Call.subtract
      (.list [.str "NAME:Selections",
        .str "Blank Parts:=", .str (String.intercalate "," objects),
        .str "Tool Parts:=", .str (String.intercalate "," tool_objects)])
      (.list [.str "NAME:SubtractParameters",
        .str "KeepOriginals:=", .bool keep_originals,
        .str "TurnOnNBodyBoolean:=", .bool true])]
  else []

/-- Embeds `unite`: unites the objects into the first one; no call is issued
unless there are at least two objects. -/
def unite (objects : List String) (keep_originals : Bool) : List Call :=
  if 1 < objects.length then
    [Call.unite
      (.list [.str "NAME:Selections",
        .str "Selections:=", .str (String.intercalate "," objects)])
      (.list [.str "NAME:UniteParameters",
        .str "KeepOriginals:=", .bool keep_originals,
        .str "TurnOnNBodyBoolean:=", .bool true])]
  else []

/-- Embeds `scale`: scales the objects by `factor` in all directions; no call is
issued when the object list is empty or the factor is `1.0`. -/
def scale (objects : List String) (factor : ℚ) : List Call :=
  if !objects.isEmpty && decide (factor ≠ 1) then
    [Call.scale (selections objects)
      (.list [.str "NAME:ScaleParameters",
        .str "ScaleX:=", .str (toString factor),
        .str "ScaleY:=", .str (toString factor),
        .str "ScaleZ:=", .str (toString factor)])]
  else []

/-- The properties a material entry of the material dictionary may carry;
an absent key is `none`. -/
structure MatProps where
  conductivity : Option ℝ := none
  permittivity : Option ℝ := none

/-- The material dictionary: material name to its (possibly partial)
property entry; an absent material is `none`. -/
def MatDict : Type := String → Option MatProps

/-- Embeds the conductivity lookup: entry of the material, defaulting to 0. -/
noncomputable def getConductivity (d : MatDict) (material : String) : ℝ :=
  ((d material).bind (fun p => p.conductivity)).getD 0

/-- Embeds the permittivity lookup: entry of the material, defaulting to 1. -/
noncomputable def getPermittivity (d : MatDict) (material : String) : ℝ :=
  ((d material).bind (fun p => p.permittivity)).getD 1

/-- Python `int()` on a float: truncation toward zero. -/
noncomputable def pyInt (x : ℝ) : ℤ :=
  if 0 ≤ x then ⌊x⌋ else ⌈x⌉

open Real in
/-- Embeds `color_by_material`: the fixed highlight color for `pec` and for
conductive materials, and the cosine palette with `n = 0.3*(permittivity-1)`
for dielectrics; opacity `0.93 ** (2*n)` for sheets, `0.93 ** n` else. -/
noncomputable def color_by_material (material : String) (d : MatDict)
    (is_sheet : Bool := true) : ℤ × ℤ × ℤ × ℝ :=
  if material = "pec" ∨ 0 < getConductivity d material then
    (240, 120, 240, 0.5)
  else
    let n : ℝ := 0.3 * (getPermittivity d material - 1.0)
    let alpha : ℝ := (0.93 : ℝ) ^ (if is_sheet then 2 * n else n)
    (pyInt (100 + 80 * cos (n - π / 3)),
     pyInt (100 + 80 * cos (n + π)),
     pyInt (100 + 80 * cos (n + π / 3)),
     alpha)

/-- A token of the regular expression `match_layer` builds: after
`re.escape` every pattern character matches itself literally, except that
the subsequent replace turns each (escaped) `*` into the wildcard `.*`. -/
inductive GTok where
  | lit : Char → GTok
  | star

/-- Tokenization of the layer pattern as performed by
`re.escape(layer_pattern).replace(r"\*", ".*")`. -/
def tokenizePattern (p : String) : List GTok :=
  p.toList.map (fun c => if c = '*' then GTok.star else GTok.lit c)

/-- The backtracking search of `.*` in the built regex: try the rest of
the pattern at every suffix reachable by consuming non-newline characters
(`.` does not match a newline in Python's `re` default mode). -/
def starScan (f : List Char → Bool) : List Char → Bool
  | [] => f []
  | c :: s => f (c :: s) || (!decide (c = '\n') && starScan f s)

/-- Matching the built regex `^...$` against the layer name with
`re.match`: literals match themselves, `.*` via `starScan`, and the final
`$` accepts the end of the string or a single trailing newline. -/
def pyMatch : List GTok → List Char → Bool
  | [], s => decide (s = []) || decide (s = ['\n'])
  | GTok.lit c :: ts, s =>
    match s with
    | [] => false
    | x :: s' => decide (x = c) && pyMatch ts s'
  | GTok.star :: ts, s => starScan (pyMatch ts) s

/-- Embeds `match_layer`: anchored regex match of the escaped pattern, with each
`*` replaced by `.*`. -/
def match_layer (layer_name layer_pattern : String) : Bool :=
  pyMatch (tokenizePattern layer_pattern) layer_name.toList

/-- The empty material dictionary. -/
def emptyMatDict : MatDict := fun _ => none

/-- A material entry with permittivity `11.45` and no conductivity key. -/
def siliconProps : MatProps :=
  { conductivity := none, permittivity := some 11.45 }

/-- A material dictionary containing only the entry `silicon`. -/
def siliconDict : MatDict :=
  fun m => if m = "silicon" then some siliconProps else none

open Real in
/-- Follows the claim's words (the spec formula for a dielectric with
`is_sheet=False`): with `n = 0.3*(perm-1)`, alpha `0.93**n`, and RGB
channels `int(100+80*cos(n - k*pi/3))` for `k = 1, 0, -1` in R, G, B
order. -/
noncomputable def specDielectricColor (perm : ℝ) : ℤ × ℤ × ℤ × ℝ :=
  (pyInt (100 + 80 * cos (0.3 * (perm - 1) - π / 3)),
   pyInt (100 + 80 * cos (0.3 * (perm - 1))),
   pyInt (100 + 80 * cos (0.3 * (perm - 1) + π / 3)),
   (0.93 : ℝ) ^ (0.3 * (perm - 1)))

/-- The search of a wildcard standing for an arbitrary (possibly empty)
substring: try the rest of the pattern at every suffix. -/
def starScanAll (f : List Char → Bool) : List Char → Bool
  | [] => f []
  | c :: s => f (c :: s) || starScanAll f s

/-- Follows the claim's words: the whole layer name matches the pattern
with every `*` standing for an arbitrary (possibly empty) substring and
all other characters matched literally. -/
def specGlobMatch : List GTok → List Char → Bool
  | [], s => decide (s = [])
  | GTok.lit c :: ts, s =>
    match s with
    | [] => false
    | x :: s' => decide (x = c) && specGlobMatch ts s'
  | GTok.star :: ts, s => starScanAll (specGlobMatch ts) s

/-- Glob matching per the claim, on whole strings. -/
def spec_match_layer (layer_name layer_pattern : String) : Bool :=
  specGlobMatch (tokenizePattern layer_pattern) layer_name.toList

/-- Declarative glob-matching semantics: `star` consumes an arbitrary
substring, a literal consumes exactly itself. -/
inductive GlobSem : List GTok → List Char → Prop where
  | nil : GlobSem [] []
  | lit {c : Char} {ts : List GTok} {s : List Char} :
      GlobSem ts s → GlobSem (GTok.lit c :: ts) (c :: s)
  | star {ts : List GTok} {u v : List Char} :
      GlobSem ts v → GlobSem (GTok.star :: ts) (u ++ v)

end AnsysGeometry

namespace ElmerCross

/-- Numeric value of a digit list, most significant first. -/
def digitsVal (ds : List Char) : ℕ :=
  ds.foldl (fun acc c => 10 * acc + (c.toNat - 48)) 0

/-- Parse one whitespace-delimited token as a number (sign, integer part,
optional fraction, optional decimal exponent), as the C float reader
behind `pandas.read_csv` does; a token it cannot read as a number is
`none`. -/
def parseRat (s : String) : Option ℚ :=
  let cs := s.toList
  let (sgn, cs1) : ℚ × List Char :=
    match cs with
    | '+' :: r => (1, r)
    | '-' :: r => (-1, r)
    | r => (1, r)
  let ip := cs1.takeWhile (fun c => c.isDigit)
  let cs2 := cs1.dropWhile (fun c => c.isDigit)
  let (fp, cs3) : List Char × List Char :=
    match cs2 with
    | '.' :: r => (r.takeWhile (fun c => c.isDigit), r.dropWhile (fun c => c.isDigit))
    | r => ([], r)
  if ip.isEmpty && fp.isEmpty then none
  else
    let mant : ℚ := sgn * ((digitsVal ip : ℚ) + (digitsVal fp : ℚ) / 10 ^ fp.length)
    match cs3 with
    | [] => some mant
    | e :: r =>
      if e = 'e' ∨ e = 'E' then
        let (esgn, r1) : ℤ × List Char :=
          match r with
          | '+' :: r2 => (1, r2)
          | '-' :: r2 => (-1, r2)
          | r2 => (1, r2)
        let ed := r1.takeWhile (fun c => c.isDigit)
        let r2 := r1.dropWhile (fun c => c.isDigit)
        if ed.isEmpty || !r2.isEmpty then none
        else some (mant * (10 : ℚ) ^ (esgn * (digitsVal ed : ℤ)))
      else none

/-- Split a line into whitespace-delimited tokens, as `sep` set to one-or-more-whitespace does. -/
def tokenizeLine (l : String) : List String :=
  (l.split (fun c => c = ' ' ∨ c = '\t' ∨ c = '\r')).filter (fun t => t ≠ "")

/-- Embeds `pandas.read_csv(..., sep=r"\s+", header=None)` on a text file:
whitespace-delimited numeric table, one row per non-blank line.  `none`
models a parse failure the code does not catch (empty file, ragged rows,
or a non-numeric token, which this model rejects conservatively). -/
def parseCsv (content : String) : Option (List (List ℚ)) :=
  let rows := ((content.splitOn "\n").map tokenizeLine).filter (fun r => !r.isEmpty)
  match rows with
  | [] => none
  | first :: _ =>
    if rows.all (fun r => r.length = first.length) then
      rows.mapM (fun r => r.mapM parseRat)
    else none

/-- Determinant by Laplace expansion along the first row; the fuel equals
the row count, so it never runs out on a square matrix. -/
def detFuel : ℕ → List (List ℚ) → ℚ
  | 0, _ => 1
  | _ + 1, [] => 1
  | fuel + 1, r :: rest =>
    ((List.range r.length).map
      (fun j => (-1 : ℚ) ^ j * r.getD j 0 *
        detFuel fuel (rest.map (fun row => row.eraseIdx j)))).sum

/-- Determinant of a square matrix given as a list of rows. -/
def detL (m : List (List ℚ)) : ℚ :=
  detFuel m.length m

/-- Embeds `numpy.linalg.inv` via the adjugate formula: `none` when the matrix is
not square or is singular (numpy raises `LinAlgError` there). -/
def invMatrix (m : List (List ℚ)) : Option (List (List ℚ)) :=
  let n := m.length
  if n = 0 || !m.all (fun r => r.length = n) then none
  else
    let d := detL m
    if d = 0 then none
    else
      some ((List.range n).map (fun i => (List.range n).map (fun j =>
        (-1 : ℚ) ^ (i + j) * detL ((m.eraseIdx j).map (fun row => row.eraseIdx i)) / d)))

/-- Embeds `scipy.constants.mu_0` modelled as the decimal value of the float. -/
def mu_0 : ℚ := 1.25663706212e-6

/-- Embeds `scipy.constants.epsilon_0` modelled as the decimal value of the
float. -/
def epsilon_0 : ℚ := 8.8541878128e-12

/-- The module constant `angular_frequency = 5e2` used for inductance
simulations. -/
def angular_frequency : ℚ := 500

/-- The configuration record (`json_data`) fields these helpers read.
`use_london_equations` is modelled from the spec: the flag is read by a
helper defined in `elmer_helpers.py`, which is not among the sources;
the spec describes it as a configuration choice selecting London-equations
(kinetic inductance) modelling. -/
structure ElmerConfig where
  sif_names : List String
  run_inductance_sim : Bool
  use_london_equations : Bool

/-- The result dictionary of the capacitance/inductance parser: the values
under keys `Cs` and `Ls`, `none` standing for Python `None`. -/
structure CLResult where
  Cs : Option (List (List ℚ))
  Ls : Option (List (List ℚ))
deriving DecidableEq

/-- Embeds `produce_cross_section_sif_files`, with the three template generators
from `elmer_helpers.py` passed as parameters (they are not among the
sources; per the spec they only render text from the configuration).
Returns the list of files written (name and content, in write order) and
the returned file-name list, `none` when the source would raise an
`IndexError` on a too-short `sif_names`. -/
def produce_cross_section_sif_files
    (sif_capacitance : ElmerConfig → String → String → ℚ → ℕ → Bool → String)
    (sif_inductance : ElmerConfig → String → ℚ → String → String)
    (sif_circuit_definitions : ElmerConfig → String)
    (cfg : ElmerConfig) (folder_path : String) :
    List (String × String) × Option (List String) :=
  match cfg.sif_names with
  | [] => ([], none)
  | n0 :: rest =>
    let w0 : String × String :=
      (n0 ++ ".sif", sif_capacitance cfg folder_path n0 0 2 false)
    if cfg.run_inductance_sim then
      if cfg.use_london_equations then
        let wc : String × String :=
          ("inductance.definitions", sif_circuit_definitions cfg)
        match rest with
        | [] => ([w0, wc], none)
        | n1 :: _ =>
          let w1 : String × String :=
            (n1 ++ ".sif",
             sif_inductance cfg folder_path angular_frequency "inductance.definitions")
          ([w0, wc, w1], some [n0 ++ ".sif", n1 ++ ".sif"])
      else
        match rest with
        | [] => ([w0], none)
        | n1 :: _ =>
          let w1 : String × String :=
            (n1 ++ ".sif", sif_capacitance cfg folder_path n1 0 2 true)
          ([w0, w1], some [n0 ++ ".sif", n1 ++ ".sif"])
    else ([w0], some [n0 ++ ".sif"])

/-- Column names extracted from the `.names` file: for every line
containing `res:`, the text after the first `res: ` separator; `none`
models the uncaught `IndexError` when such a line has no `res: `. -/
def extractColNames (ntext : String) : Option (List String) :=
  ((ntext.splitOn "\n").filter
      (fun l => (l.splitOn "res:").length ≥ 2)).mapM
    (fun l =>
      match l.splitOn "res: " with
      | _ :: p1 :: _ => some p1
      | _ => none)

/-- Column of a data frame by column name: the first column carrying the
name, `none` modelling the uncaught `KeyError` when no column does. -/
def getColumn (rows : List (List ℚ)) (cols : List String) (name : String) :
    Option (List ℚ) :=
  (cols.findIdx? (fun c => c = name)).map
    (fun i => rows.map (fun r => r.getD i 0))

/-- Imaginary part of the complex quotient
`(vr + vi*I) / (ir + ii*I)`; a zero divisor yields `0` in this model,
where numpy would produce a non-finite float instead of raising. -/
def complexDivIm (vr vi ir ii : ℚ) : ℚ :=
  (vi * ir - vr * ii) / (ir ^ 2 + ii ^ 2)

/-- The single row `np.imag(impedance) / angular_frequency` of the
inductance matrix in the London branch. -/
def impedanceImRow (vr vi ir ii : List ℚ) : List ℚ :=
  (((vr.zip vi).zip (ir.zip ii)).map
    (fun p => complexDivIm p.1.1 p.1.2 p.2.1 p.2.2 / angular_frequency))

/-- Elementwise scaling of a matrix by a constant. -/
def scaleMatrix (a : ℚ) (m : List (List ℚ)) : List (List ℚ) :=
  m.map (fun r => r.map (fun x => a * x))

/-- Embeds `get_cross_section_capacitance_and_inductance`: the folder is modelled
as a partial map from file name to file content, `none` being an absent
file (reads of absent files raise `FileNotFoundError`, which the code
catches).  The outer `Option` is `none` when the code would raise an
uncaught error. -/
def get_cross_section_capacitance_and_inductance
    (cfg : ElmerConfig) (fs : String → Option String) : Option CLResult :=
  match fs "capacitance.dat" with
  | none => some ⟨none, none⟩
  | some ctext =>
    match parseCsv ctext with
    | none => none
    | some c =>
      if cfg.use_london_equations then
        match (match fs "inductance.dat" with
               | some t => some t
               | none => fs "inductance.dat.0") with
        | none => some ⟨some c, none⟩
        | some ltext =>
          match parseCsv ltext with
          | none => none
          | some ldata =>
            match fs "inductance.dat.names" with
            | none => some ⟨some c, none⟩
            | some ntext =>
              match extractColNames ntext with
              | none => none
              | some cols =>
                if cols.length = (ldata.headD []).length then
                  match getColumn ldata cols "v_component(1) re",
                        getColumn ldata cols "v_component(1) im",
                        getColumn ldata cols "i_component(1) re",
                        getColumn ldata cols "i_component(1) im" with
                  | some vr, some vi, some ir, some ii =>
                    some ⟨some c, some [impedanceImRow vr vi ir ii]⟩
                  | _, _, _, _ => none
                else none
      else
        match fs "capacitance0.dat" with
        | none => some ⟨some c, none⟩
        | some c0text =>
          match parseCsv c0text with
          | none => none
          | some c0 =>
            match invMatrix c0 with
            | none => none
            | some c0inv => some ⟨some c, some (scaleMatrix (mu_0 * epsilon_0) c0inv)⟩

end ElmerCross

namespace AnsysGeometry

theorem formatPositionList_eq_map (l : List PosVal) (units : String) :
    formatPositionList l units = l.map (fun p => format_position p units) := by
  induction l with
  | nil => rfl
  | cons p ps ih => simp [formatPositionList, ih]

/-- C7: `format_position` maps a bare number to its decimal string with
the unit suffix appended, passes a string argument through unchanged, and
recurses elementwise into lists; in particular `5 ↦ "5um"`,
`[1,2] ↦ ["1um","2um"]` and `"3um" ↦ "3um"`. -/
theorem format_position_spec :
    (∀ (q : ℚ) (units : String),
      format_position (.num q) units = .str (toString q ++ units)) ∧
    (∀ (s units : String), format_position (.str s) units = .str s) ∧
    (∀ (l : List PosVal) (units : String),
      format_position (.list l) units =
        .list (l.map (fun p => format_position p units))) ∧
    format_position (.num 5) "um" = .str "5um" ∧
    format_position (.list [.num 1, .num 2]) "um" =
      .list [.str "1um", .str "2um"] ∧
    format_position (.str "3um") "um" = .str "3um" := by
  refine ⟨fun q units => rfl, fun s units => rfl, fun l units => ?_, rfl, rfl, rfl⟩
  show PosVal.list (formatPositionList l units) = _
  rw [formatPositionList_eq_map]

/-- C1: a shape-creation function asked for a geometry with a dimension
exactly zero (width or height for `create_rectangle`, any extent for
`create_box`) issues no call to the editor session and raises no error. -/
theorem create_zero_dimension_noop :
    ∀ (name : String) (x y z w h : PosVal) (axis units : String)
      (sx sy sz : PosVal),
      (w = .num 0 ∨ h = .num 0 →
        create_rectangle name x y z w h axis units = []) ∧
      (sx = .num 0 ∨ sy = .num 0 ∨ sz = .num 0 →
        create_box name x y z sx sy sz units = []) := by
  intro name x y z w h axis units sx sy sz
  constructor
  · rintro (rfl | rfl) <;> simp [create_rectangle, pyNeZero]
  · rintro (rfl | rfl | rfl) <;> simp [create_box, pyNeZero]

theorem create_zero_dimension_noop_witness :
    create_rectangle "rect" (.num 1) (.num 2) (.num 3) (.num 0) (.num 4)
      "Z" "um" = [] ∧
    create_box "box" (.num 1) (.num 2) (.num 3) (.num 0) (.num 4) (.num 5)
      "um" = [] :=
  ⟨(create_zero_dimension_noop "rect" (.num 1) (.num 2) (.num 3) (.num 0)
      (.num 4) "Z" "um" (.num 0) (.num 4) (.num 5)).1 (Or.inl rfl),
   (create_zero_dimension_noop "box" (.num 1) (.num 2) (.num 3) (.num 0)
      (.num 4) "Z" "um" (.num 0) (.num 4) (.num 5)).2 (Or.inl rfl)⟩

/-- C5: every transform function issues no call on an empty object list
(and `copy_paste` then also returns an empty list); the same holds for
`scale` with factor `1.0` and for `unite` with fewer than two objects. -/
theorem transform_empty_noop :
    (∀ (t : ℚ) (units : String), thicken_sheet [] t units = []) ∧
    (∀ (z : ℚ) (units : String), move_vertically [] z units = []) ∧
    (∀ f : ℚ, scale [] f = []) ∧
    (∀ objects : List String, scale objects 1 = []) ∧
    (∀ pasteResult : List String, copy_paste pasteResult [] = ([], [])) ∧
    delete [] = [] ∧
    (∀ (tools : List String) (k : Bool), subtract [] tools k = []) ∧
    (∀ (objects : List String) (k : Bool), objects.length < 2 →
      unite objects k = []) := by
  refine ⟨fun t u => rfl, fun z u => rfl, fun f => rfl, fun objects => ?_,
    fun pr => rfl, rfl, fun tools k => rfl, fun objects k h => ?_⟩
  · simp [scale]
  · have hlen : ¬ 1 < objects.length := by omega
    simp [unite, hlen]

theorem transform_empty_noop_witness :
    thicken_sheet [] 3 "um" = [] ∧
    move_vertically [] 2 "um" = [] ∧
    scale [] 7 = [] ∧
    scale ["a"] 1 = [] ∧
    copy_paste ["b"] [] = ([], []) ∧
    delete [] = [] ∧
    subtract [] ["c"] false = [] ∧
    unite ["a"] false = [] :=
  ⟨transform_empty_noop.1 3 "um",
   transform_empty_noop.2.1 2 "um",
   transform_empty_noop.2.2.1 7,
   transform_empty_noop.2.2.2.1 ["a"],
   transform_empty_noop.2.2.2.2.1 ["b"],
   transform_empty_noop.2.2.2.2.2.1,
   transform_empty_noop.2.2.2.2.2.2.1 ["c"] false,
   transform_empty_noop.2.2.2.2.2.2.2 ["a"] false (by decide)⟩

/-- C9: `set_material` on a non-empty object list with no material issues
the `ChangeProperty` call that sets the objects' `Model` property to
`False`, and never the one that sets `Material`. -/
theorem set_material_none_excludes_from_model :
    ∀ (objects : List String) (solve_inside : Option Bool),
      objects ≠ [] →
      Call.changeProperty (modelFalseProp objects) ∈
        set_material objects none solve_inside ∧
      ∀ m : String, Call.changeProperty (materialProp objects m) ∉
        set_material objects none solve_inside := by
  intro objects si h
  constructor
  · cases si <;> simp [set_material, h]
  · intro m hmem
    cases si <;>
      simp [set_material, h, materialProp, modelFalseProp, solveInsideProp] at hmem

theorem set_material_none_excludes_from_model_witness :
    Call.changeProperty (modelFalseProp ["a"]) ∈ set_material ["a"] none none ∧
    ∀ m : String, Call.changeProperty (materialProp ["a"] m) ∉
      set_material ["a"] none none :=
  set_material_none_excludes_from_model ["a"] none (by decide)

/-- C10: for a non-empty point list the `CreatePolyline` command emitted
by `create_polygon` carries `len(points)+1` point entries, the first point
being repeated as the last entry, and `len(points)` line segments, one
starting at each index `0..len(points)-1`. -/
theorem create_polygon_closed_polyline :
    ∀ (name units : String) (p : Point3) (rest : List Point3),
      create_polygon name (p :: rest) units =
        some (polylineCommand name (p :: rest) units) ∧
      (polylinePoints (p :: rest) units).length = (p :: rest).length + 1 ∧
      (polylinePoints (p :: rest) units).head? = some (plPoint p units) ∧
      (polylinePoints (p :: rest) units).getLast? = some (plPoint p units) ∧
      (polylineSegments (p :: rest)).length = (p :: rest).length ∧
      ∀ i : ℕ, i < (p :: rest).length →
        (polylineSegments (p :: rest))[i]? = some (plSegment i) := by
  intro name units p rest
  refine ⟨rfl, ?_, ?_, ?_, ?_, ?_⟩
  · simp [polylinePoints]
  · simp [polylinePoints]
  · show (((p :: rest) ++ [p]).map (fun q => plPoint q units)).getLast? = _
    rw [List.map_append]
    exact List.getLast?_concat _
  · simp only [polylineSegments, List.length_map, List.length_range]
  · intro i hi
    simp only [polylineSegments, List.getElem?_map, List.getElem?_range hi]
    rfl

/-- C6: the fixed highlight color and 0.5 opacity for `pec` and for any
material whose conductivity entry is positive. -/
theorem color_by_material_pec_fixed :
    ∀ (material : String) (d : MatDict) (is_sheet : Bool),
      material = "pec" ∨ 0 < getConductivity d material →
      color_by_material material d is_sheet = (240, 120, 240, 0.5) := by
  intro m d sh h
  unfold color_by_material
  rw [if_pos h]

theorem color_by_material_pec_fixed_witness :
    color_by_material "pec" emptyMatDict true = (240, 120, 240, 0.5) :=
  color_by_material_pec_fixed "pec" emptyMatDict true (Or.inl rfl)

theorem cos_3135_lt_neg_half : Real.cos 3.135 < -(1 / 2) := by
  have h1 : Real.cos (Real.pi - Real.pi / 3) = -(1 / 2) := by
    rw [Real.cos_pi_sub, Real.cos_pi_div_three]
  have h2 : Real.cos (3.135 : ℝ) < Real.cos (Real.pi - Real.pi / 3) := by
    apply Real.cos_lt_cos_of_nonneg_of_le_pi
    · linarith [Real.pi_gt_d2]
    · linarith [Real.pi_gt_d2]
    · linarith [Real.pi_lt_d2]
  linarith

theorem silicon_green_channels_ne :
    pyInt (100 + 80 * Real.cos ((3.135 : ℝ) + Real.pi)) ≠
      pyInt (100 + 80 * Real.cos (3.135 : ℝ)) := by
  have hc := cos_3135_lt_neg_half
  have hc1 : -1 ≤ Real.cos (3.135 : ℝ) := Real.neg_one_le_cos _
  have hadd : Real.cos ((3.135 : ℝ) + Real.pi) = -Real.cos 3.135 := by
    rw [Real.cos_add, Real.cos_pi, Real.sin_pi]
    ring
  rw [hadd]
  have h1 : (0 : ℝ) ≤ 100 + 80 * -Real.cos 3.135 := by linarith
  have h2 : (0 : ℝ) ≤ 100 + 80 * Real.cos 3.135 := by linarith
  unfold pyInt
  rw [if_pos h1, if_pos h2]
  have hA : (140 : ℤ) ≤ ⌊(100 : ℝ) + 80 * -Real.cos 3.135⌋ := by
    rw [Int.le_floor]
    push_cast
    linarith
  have hB : ⌊(100 : ℝ) + 80 * Real.cos (3.135 : ℝ)⌋ < (60 : ℤ) := by
    rw [Int.floor_lt]
    push_cast
    linarith
  omega

/-- C2 counterexample: for a material of permittivity 11.45 with no
positive conductivity and `is_sheet=False`, the color returned by
`color_by_material` differs from the claim's formula (the green channel of
the code is `int(100+80*cos(n + pi))`, not `int(100+80*cos(n))`). -/
theorem color_by_material_silicon_counterexample :
    color_by_material "silicon" siliconDict false ≠ specDielectricColor 11.45 := by
  have hcond : ¬ ("silicon" = "pec" ∨ 0 < getConductivity siliconDict "silicon") := by
    simp [getConductivity, siliconDict, siliconProps]
  have hp : getPermittivity siliconDict "silicon" = 11.45 := by
    simp [getPermittivity, siliconDict, siliconProps]
  intro h
  unfold color_by_material specDielectricColor at h
  rw [if_neg hcond] at h
  dsimp only at h
  rw [hp] at h
  have hG := congrArg (fun t : ℤ × ℤ × ℤ × ℝ => t.2.1) h
  dsimp only at hG
  rw [show (0.3 : ℝ) * (11.45 - 1.0) = 3.135 by norm_num] at hG
  rw [show (0.3 : ℝ) * (11.45 - 1) = 3.135 by norm_num] at hG
  exact silicon_green_channels_ne hG

/-- C2 (amended): for a material whose permittivity lookup gives 11.45,
whose conductivity lookup is not positive and with `is_sheet=False`,
`color_by_material` returns `n = 0.3*(11.45-1) = 3.135`,
`alpha = 0.93**n`, and channels `int(100+80*cos(n - pi/3))`,
`int(100+80*cos(n + pi))`, `int(100+80*cos(n + pi/3))` in R, G, B
order. -/
theorem color_by_material_dielectric_perm_1145 :
    ∀ (material : String) (d : MatDict),
      material ≠ "pec" → getConductivity d material ≤ 0 →
      getPermittivity d material = 11.45 →
      color_by_material material d false =
        (pyInt (100 + 80 * Real.cos ((3.135 : ℝ) - Real.pi / 3)),
         pyInt (100 + 80 * Real.cos ((3.135 : ℝ) + Real.pi)),
         pyInt (100 + 80 * Real.cos ((3.135 : ℝ) + Real.pi / 3)),
         (0.93 : ℝ) ^ (3.135 : ℝ)) := by
  intro m d hm hc hp
  have hcond : ¬ (m = "pec" ∨ 0 < getConductivity d m) := by
    push_neg
    exact ⟨hm, hc⟩
  unfold color_by_material
  rw [if_neg hcond]
  dsimp only
  rw [hp]
  rw [show (0.3 : ℝ) * (11.45 - 1.0) = 3.135 by norm_num]
  norm_num

theorem starScanAll_of_append (f : List Char → Bool) (u v : List Char)
    (hv : f v = true) : starScanAll f (u ++ v) = true := by
  induction u with
  | nil =>
    cases v with
    | nil => exact hv
    | cons c v' => simp [starScanAll, hv]
  | cons c u' ihu => simp [starScanAll, ihu]

theorem specGlobMatch_iff_GlobSem (ts : List GTok) :
    ∀ s : List Char, specGlobMatch ts s = true ↔ GlobSem ts s := by
  induction ts with
  | nil =>
    intro s
    constructor
    · intro h
      cases s with
      | nil => exact GlobSem.nil
      | cons x s' => simp [specGlobMatch] at h
    · intro h
      cases h
      rfl
  | cons t ts ih =>
    cases t with
    | lit c =>
      intro s
      constructor
      · intro h
        cases s with
        | nil => simp [specGlobMatch] at h
        | cons x s' =>
          simp only [specGlobMatch, Bool.and_eq_true, decide_eq_true_eq] at h
          obtain ⟨rfl, h2⟩ := h
          exact GlobSem.lit ((ih s').mp h2)
      · intro h
        cases h with
        | lit h' =>
          simp only [specGlobMatch, Bool.and_eq_true, decide_eq_true_eq]
          exact ⟨by trivial, (ih _).mpr h'⟩
    | star =>
      intro s
      constructor
      · induction s with
        | nil =>
          intro h
          exact (GlobSem.star ((ih []).mp h) : GlobSem _ ([] ++ []))
        | cons x s' ihs =>
          intro h
          rcases Bool.or_eq_true _ _ |>.mp h with h1 | h2
          · exact (GlobSem.star ((ih _).mp h1) : GlobSem _ ([] ++ (x :: s')))
          · have hg := ihs h2
            cases hg with
            | star hv => exact (GlobSem.star hv : GlobSem _ ((x :: _) ++ _))
      · intro h
        cases h with
        | star hv => exact starScanAll_of_append _ _ _ ((ih _).mpr hv)

theorem pyMatch_eq_specGlobMatch (ts : List GTok) :
    ∀ s : List Char, (∀ c ∈ s, c ≠ '\n') → pyMatch ts s = specGlobMatch ts s := by
  induction ts with
  | nil =>
    intro s h
    have hs : s ≠ ['\n'] := by
      intro heq
      exact h '\n' (by rw [heq]; exact List.mem_singleton_self _) rfl
    simp [pyMatch, specGlobMatch, hs]
  | cons t ts ih =>
    cases t with
    | lit c =>
      intro s h
      cases s with
      | nil => rfl
      | cons x s' =>
        show (decide (x = c) && pyMatch ts s') = (decide (x = c) && specGlobMatch ts s')
        rw [ih s' (fun a ha => h a (List.mem_cons_of_mem _ ha))]
    | star =>
      intro s
      induction s with
      | nil =>
        intro _
        exact ih [] (fun c hc => absurd hc (List.not_mem_nil c))
      | cons x s' ihs =>
        intro h
        have hx : x ≠ '\n' := h x (List.mem_cons_self _ _)
        have hd : decide (x = '\n') = false := by simp [hx]
        have h1 := ih (x :: s') h
        have h2 := ihs (fun a ha => h a (List.mem_cons_of_mem _ ha))
        show (pyMatch ts (x :: s') ||
          (!decide (x = '\n') && pyMatch (GTok.star :: ts) s')) =
          (specGlobMatch ts (x :: s') || specGlobMatch (GTok.star :: ts) s')
        rw [h1, h2, hd]
        simp

/-- C8 counterexample: `match_layer` accepts a layer name that the claim's
whole-string glob semantics rejects: the built regex ends in `$`, which in
Python also matches just before a single trailing newline, so
`match_layer("ab\n", "ab")` is `True` while `"ab\n"` is not literally
`"ab"`. -/
theorem match_layer_newline_counterexample :
    match_layer "ab\n" "ab" = true ∧ spec_match_layer "ab\n" "ab" = false := by
  decide

/-- C8 (amended): for layer names containing no newline character,
`match_layer` returns `True` exactly when the whole layer name matches the
pattern with every `*` standing for an arbitrary (possibly empty)
substring and all other characters matched literally.  (With a newline the
code differs: the regex `$` tolerates one trailing newline and `.*` cannot
cross a newline.) -/
theorem match_layer_glob_semantics :
    (∀ (layer_name layer_pattern : String),
      (∀ c ∈ layer_name.toList, c ≠ '\n') →
      (match_layer layer_name layer_pattern = true ↔
        GlobSem (tokenizePattern layer_pattern) layer_name.toList)) ∧
    match_layer "M1_test" "M1_*" = true ∧
    match_layer "M2_test" "M1_*" = false ∧
    match_layer "abc" "a*c" = true := by
  refine ⟨fun name pat h => ?_, by decide, by decide, by decide⟩
  rw [match_layer, pyMatch_eq_specGlobMatch _ _ h]
  exact specGlobMatch_iff_GlobSem _ _

theorem match_layer_glob_semantics_witness :
    (∀ c ∈ ("M1_test" : String).toList, c ≠ '\n') ∧
    (match_layer "M1_test" "M1_*" = true ↔
      GlobSem (tokenizePattern "M1_*") ("M1_test" : String).toList) :=
  ⟨by decide, match_layer_glob_semantics.1 "M1_test" "M1_*" (by decide)⟩

theorem color_by_material_dielectric_perm_1145_witness :
    ("silicon" ≠ "pec") ∧
    getConductivity siliconDict "silicon" ≤ 0 ∧
    getPermittivity siliconDict "silicon" = 11.45 ∧
    color_by_material "silicon" siliconDict false =
      (pyInt (100 + 80 * Real.cos ((3.135 : ℝ) - Real.pi / 3)),
       pyInt (100 + 80 * Real.cos ((3.135 : ℝ) + Real.pi)),
       pyInt (100 + 80 * Real.cos ((3.135 : ℝ) + Real.pi / 3)),
       (0.93 : ℝ) ^ (3.135 : ℝ)) :=
  ⟨by decide,
   by simp [getConductivity, siliconDict, siliconProps],
   by simp [getPermittivity, siliconDict, siliconProps],
   color_by_material_dielectric_perm_1145 "silicon" siliconDict (by decide)
     (by simp [getConductivity, siliconDict, siliconProps])
     (by simp [getPermittivity, siliconDict, siliconProps])⟩

end AnsysGeometry

namespace ElmerCross

/-- C4: `produce_cross_section_sif_files` always writes, first, a
capacitance-only input file named `sif_names[0] + ".sif"` generated with
angular frequency 0, dimension 2 and zero-potential handling disabled, and
whenever a file-name list is returned its first element is that very file
name. -/
theorem produce_sif_files_first_capacitance :
    ∀ (sif_capacitance : ElmerConfig → String → String → ℚ → ℕ → Bool → String)
      (sif_inductance : ElmerConfig → String → ℚ → String → String)
      (sif_circuit_definitions : ElmerConfig → String)
      (cfg : ElmerConfig) (folder : String) (n0 : String) (rest : List String),
      cfg.sif_names = n0 :: rest →
      (produce_cross_section_sif_files sif_capacitance sif_inductance
          sif_circuit_definitions cfg folder).1.head? =
        some (n0 ++ ".sif", sif_capacitance cfg folder n0 0 2 false) ∧
      ∀ lst, (produce_cross_section_sif_files sif_capacitance sif_inductance
          sif_circuit_definitions cfg folder).2 = some lst →
        lst.head? = some (n0 ++ ".sif") := by
  intro sc si scd cfg folder n0 rest h
  unfold produce_cross_section_sif_files
  rw [h]
  constructor
  · cases cfg.run_inductance_sim <;> cases cfg.use_london_equations <;>
      cases rest <;> simp
  · intro lst
    cases cfg.run_inductance_sim <;> cases cfg.use_london_equations <;>
      cases rest <;> (intro hl; simp_all) <;> (subst hl; rfl)

theorem produce_sif_files_first_capacitance_witness :
    (produce_cross_section_sif_files (fun _ _ _ _ _ _ => "C")
        (fun _ _ _ _ => "I") (fun _ => "D")
        ⟨["a", "b"], false, false⟩ "f").1.head? =
      some ("a" ++ ".sif", "C") ∧
    ∀ lst, (produce_cross_section_sif_files (fun _ _ _ _ _ _ => "C")
        (fun _ _ _ _ => "I") (fun _ => "D")
        ⟨["a", "b"], false, false⟩ "f").2 = some lst →
      lst.head? = some ("a" ++ ".sif") :=
  produce_sif_files_first_capacitance (fun _ _ _ _ _ _ => "C")
    (fun _ _ _ _ => "I") (fun _ => "D") ⟨["a", "b"], false, false⟩ "f"
    "a" ["b"] rfl

/-- C3: `get_cross_section_capacitance_and_inductance` returns the
dictionary with both entries `None` when `capacitance.dat` is absent,
whatever other files exist; and when `capacitance.dat` is present but the
inductance input files are absent (either branch), it returns the parsed
capacitance matrix with `Ls` equal to `None`; missing files never raise to
the caller. -/
theorem get_cross_section_missing_files :
    ∀ (cfg : ElmerConfig) (fs : String → Option String),
      (fs "capacitance.dat" = none →
        get_cross_section_capacitance_and_inductance cfg fs =
          some ⟨none, none⟩) ∧
      (∀ ctext, fs "capacitance.dat" = some ctext →
        cfg.use_london_equations = true →
        fs "inductance.dat" = none → fs "inductance.dat.0" = none →
        get_cross_section_capacitance_and_inductance cfg fs =
          (parseCsv ctext).map (fun c => ⟨some c, none⟩)) ∧
      (∀ ctext, fs "capacitance.dat" = some ctext →
        cfg.use_london_equations = false →
        fs "capacitance0.dat" = none →
        get_cross_section_capacitance_and_inductance cfg fs =
          (parseCsv ctext).map (fun c => ⟨some c, none⟩)) := by
  intro cfg fs
  refine ⟨fun h => ?_, fun ct h1 h2 h3 h4 => ?_, fun ct h1 h2 h3 => ?_⟩
  · unfold get_cross_section_capacitance_and_inductance
    rw [h]
  · unfold get_cross_section_capacitance_and_inductance
    simp only [h1, h2, h3, h4]
    cases hp : parseCsv ct <;> simp [hp]
  · unfold get_cross_section_capacitance_and_inductance
    simp only [h1, h2, h3]
    cases hp : parseCsv ct <;> simp [hp]

theorem get_cross_section_missing_files_witness :
    get_cross_section_capacitance_and_inductance ⟨[], false, false⟩
      (fun _ => none) = some ⟨none, none⟩ ∧
    get_cross_section_capacitance_and_inductance ⟨[], false, true⟩
      (fun n => if n = "capacitance.dat" then some "1 2" else none) =
      (parseCsv "1 2").map (fun c => ⟨some c, none⟩) ∧
    get_cross_section_capacitance_and_inductance ⟨[], false, false⟩
      (fun n => if n = "capacitance.dat" then some "1 2" else none) =
      (parseCsv "1 2").map (fun c => ⟨some c, none⟩) :=
  ⟨(get_cross_section_missing_files ⟨[], false, false⟩ (fun _ => none)).1 rfl,
   (get_cross_section_missing_files ⟨[], false, true⟩
      (fun n => if n = "capacitance.dat" then some "1 2" else none)).2.1
      "1 2" (by decide) rfl (by decide) (by decide),
   (get_cross_section_missing_files ⟨[], false, false⟩
      (fun n => if n = "capacitance.dat" then some "1 2" else none)).2.2
      "1 2" (by decide) rfl (by decide)⟩

end ElmerCross
